import Mathlib

/-
Shallow embedding of the homestretch-scoring calculator (src/calculator.ts).

Modelling conventions:
- JavaScript numbers are modelled as exact rationals (ℚ); `Math.round` is
  round-half-up (`jsRound`), `Math.ceil` is `jsCeil`.
- `string | null` fields are `Option String`, `boolean | null` is `Option Bool`.
- JS truthiness is modelled where it matters: `!creditScore` is true for both
  null and 0, `creditScore || 650` yields 650 for null and 0, and
  `veteranStatus && [...].includes(veteranStatus)` is false for null.
- TypeScript default parameters (downPaymentPercent = 0.035) are passed
  explicitly as 35/1000 at every call site that uses the default.
- Display-only string fields that no control flow ever reads (headline,
  subheadline, description, impact, actionLabel, currentValue, targetValue,
  the `current` field of gaps, and the reason/benefit strings built with
  formatCurrency inside checkDPAEligibility) are omitted from the records;
  every field omitted is written by the source and then only rendered.
-/

set_option exponentiation.threshold 600

/-- JavaScript Math.round: round half toward positive infinity. -/
def jsRound (q : ℚ) : ℚ := ((⌊q + 1/2⌋ : ℤ) : ℚ)

/-- JavaScript Math.ceil. -/
def jsCeil (q : ℚ) : ℚ := ((⌈q⌉ : ℤ) : ℚ)

/-- ScoreStatus from types.ts. -/
inductive ScoreStatus where
  | READY_NOW
  | ALMOST_READY
  | GETTING_CLOSE
  | BUILDING
  | EARLY_STAGE
  | JUST_EXPLORING
deriving DecidableEq

/-- ScoreInput from types.ts (the optional Phase 2 fields are never read by
calculator.ts and are omitted). -/
structure ScoreInput where
  creditScoreRange : Option String
  annualIncome : Option String
  downPayment : Option String
  priceRange : Option String
  monthlyDebts : Option String
  firstTimeBuyer : Option Bool
  veteranStatus : Option String

/-- Credit score range to approximate score mapping. The "not-sure" entry of
the source table is `null`, and an unknown token also yields `null`
(`mapping[range] ?? null`), so both map to `none` here. -/
def getCreditScore (range : Option String) : Option ℚ :=
  match range with
  | none => none
  | some r =>
    match r with
    | "below-580" => some 550
    | "580-619" => some 600
    | "620-659" => some 640
    | "660-699" => some 680
    | "700-739" => some 720
    | "740-plus" => some 760
    | _ => none

/-- Calculate credit points (30 max). JS `if (!creditScore) return 15` is
true for null and for 0. -/
def calculateCreditPoints (creditScore : Option ℚ) : ℤ :=
  match creditScore with
  | none => 15
  | some c =>
    if c = 0 then 15
    else if c ≥ 740 then 30
    else if c ≥ 720 then 27
    else if c ≥ 700 then 24
    else if c ≥ 680 then 20
    else if c ≥ 660 then 17
    else if c ≥ 640 then 14
    else if c ≥ 620 then 10
    else if c ≥ 580 then 5
    else if c ≥ 500 then 2
    else 0

/-- Get income amount from range. -/
def getIncomeAmount (range : Option String) : ℚ :=
  match range with
  | none => 60000
  | some r =>
    match r with
    | "under-40k" => 35000
    | "40k-60k" => 50000
    | "60k-80k" => 70000
    | "80k-100k" => 90000
    | "100k-150k" => 125000
    | "150k-180k" => 165000
    | "180k-220k" => 200000
    | "220k-plus" => 250000
    | _ => 60000

/-- Get price amount from range. -/
def getPriceAmount (range : Option String) : ℚ :=
  match range with
  | none => 500000
  | some r =>
    match r with
    | "under-400k" => 350000
    | "400k-500k" => 450000
    | "500k-600k" => 550000
    | "600k-700k" => 650000
    | "700k-800k" => 750000
    | "800k-900k" => 850000
    | "900k-1m" => 950000
    | "1m-plus" => 1200000
    | _ => 500000

/-- Get down payment amount from range. -/
def getDownPaymentAmount (range : Option String) : ℚ :=
  match range with
  | none => 20000
  | some r =>
    match r with
    | "under-10k" => 5000
    | "10k-25k" => 17500
    | "25k-50k" => 37500
    | "50k-75k" => 62500
    | "75k-100k" => 87500
    | "100k-140k" => 120000
    | "140k-180k" => 160000
    | "180k-220k" => 200000
    | "220k-260k" => 240000
    | "260k-plus" => 300000
    | _ => 20000

/-- Get monthly debt amount from range. -/
def getMonthlyDebtAmount (range : Option String) : ℚ :=
  match range with
  | none => 0
  | some r =>
    match r with
    | "none" => 0
    | "under-250" => 125
    | "250-500" => 375
    | "500-1000" => 750
    | "1000-2000" => 1500
    | "2000-2500" => 2250
    | "2500-3000" => 2750
    | "3000-plus" => 3500
    | _ => 0

/-- Current mortgage rate constant (6.0%). -/
def CURRENT_RATE : ℚ := 6/100

/-- Estimate monthly payment (PITI): amortized mortgage over 360 months plus
1.2%/yr property tax, flat $100/mo insurance, 0.8%/yr PMI on the loan. -/
def estimateMonthlyPayment (price downPaymentPercent : ℚ) : ℚ :=
  let downPayment := price * downPaymentPercent
  let loanAmount := price - downPayment
  let monthlyRate := CURRENT_RATE / 12
  let mortgage :=
    (loanAmount * (monthlyRate * (1 + monthlyRate) ^ (360 : ℕ))) /
      ((1 + monthlyRate) ^ (360 : ℕ) - 1)
  let propertyTax := (price * (12/1000)) / 12
  let insurance : ℚ := 100
  let pmi := (loanAmount * (8/1000)) / 12
  mortgage + propertyTax + insurance + pmi

/-- Calculate DTI points (25 max). -/
def calculateDtiPoints (monthlyIncome targetPrice monthlyDebts : ℚ) : ℤ :=
  let estimatedPayment := estimateMonthlyPayment targetPrice (35/1000)
  let totalObligations := estimatedPayment + monthlyDebts
  let dti := totalObligations / monthlyIncome * 100
  if dti < 28 then 25
  else if dti < 36 then 22
  else if dti < 41 then 18
  else if dti < 44 then 14
  else if dti < 50 then 10
  else if dti < 57 then 5
  else 0

/-- JS `veteranStatus && ["active","veteran","guard-reserve","spouse"].includes(veteranStatus)`. -/
def isVeteranEligible (veteranStatus : Option String) : Bool :=
  match veteranStatus with
  | some s => ["active", "veteran", "guard-reserve", "spouse"].contains s
  | none => false

/-- Calculate down payment points (20 max). VA eligible short-circuits to 15. -/
def calculateDownPaymentPoints (saved targetPrice : ℚ) (veteranStatus : Option String) : ℤ :=
  if isVeteranEligible veteranStatus then 15
  else
    let percentage := saved / targetPrice * 100
    if percentage ≥ 20 then 20
    else if percentage ≥ 15 then 17
    else if percentage ≥ 10 then 14
    else if percentage ≥ 5 then 10
    else if percentage ≥ 35/10 then 7
    else if percentage ≥ 3 then 5
    else if percentage ≥ 1 then 3
    else 1

/-- Calculate employment points (fixed at 12 in the simplified flow). -/
def calculateEmploymentPoints : ℤ := 12

/-- Calculate reserves points (10 max). -/
def calculateReservesPoints (saved targetPrice : ℚ) : ℤ :=
  let downPaymentNeeded := targetPrice * (35/1000)
  let reserves := max 0 (saved - downPaymentNeeded)
  let monthlyPiti := estimateMonthlyPayment targetPrice (35/1000)
  let months := reserves / monthlyPiti
  if months ≥ 6 then 10
  else if months ≥ 4 then 8
  else if months ≥ 3 then 6
  else if months ≥ 2 then 4
  else if months ≥ 1 then 2
  else 0

/-- Calculate bonus points: veteran +10, explicit first-time buyer +5. -/
def calculateBonusPoints (firstTimeBuyer : Option Bool) (veteranStatus : Option String) : ℤ :=
  (if isVeteranEligible veteranStatus then 10 else 0) +
    (if firstTimeBuyer = some true then 5 else 0)

/-- Get status from score. -/
def getStatus (score : ℤ) : ScoreStatus :=
  if score ≥ 85 then .READY_NOW
  else if score ≥ 75 then .ALMOST_READY
  else if score ≥ 60 then .GETTING_CLOSE
  else if score ≥ 45 then .BUILDING
  else if score ≥ 25 then .EARLY_STAGE
  else .JUST_EXPLORING

/-- Get timeline from score. -/
def getTimeline (score : ℤ) : String :=
  if score ≥ 85 then "0-1 months"
  else if score ≥ 75 then "1-2 months"
  else if score ≥ 60 then "3-6 months"
  else if score ≥ 45 then "6-12 months"
  else if score ≥ 25 then "12-18 months"
  else "18+ months"

/-- Get color from status. -/
def getColor (status : ScoreStatus) : String :=
  match status with
  | .READY_NOW => "red"
  | .ALMOST_READY => "orange"
  | .GETTING_CLOSE => "yellow"
  | .BUILDING => "blue"
  | .EARLY_STAGE => "blue"
  | .JUST_EXPLORING => "blue"

/-- ProgramDetail from types.ts. -/
structure ProgramDetail where
  name : String
  eligible : Bool
  reason : String
  benefit : String

/-- JS `creditScore || 650` (650 for null and for 0). -/
def creditScoreOr650 (creditScore : Option ℚ) : ℚ :=
  match creditScore with
  | none => 650
  | some c => if c = 0 then 650 else c

/-- Match programs: each program is pushed only when its predicate holds, in
fixed catalog order (VA, FHA, Conventional, Utah FirstHome, Utah HomeAgain). -/
def matchPrograms (creditScore : Option ℚ) (firstTimeBuyer : Option Bool)
    (veteranStatus : Option String) (income : ℚ) : List ProgramDetail :=
  let score := creditScoreOr650 creditScore
  (if isVeteranEligible veteranStatus then
    [{ name := "VA Loan", eligible := true, reason := "Military service",
       benefit := "0% down payment, no PMI" }]
   else [])
  ++ (if score ≥ 580 then
    [{ name := "FHA Loan", eligible := true,
       reason := if score ≥ 580 then "Credit score qualifies" else "Need 580+ credit",
       benefit := "3.5% down payment" }]
   else [])
  ++ (if score ≥ 620 then
    [{ name := "Conventional Loan", eligible := true, reason := "Credit score qualifies",
       benefit := "Competitive rates, 3-5% down" }]
   else [])
  ++ (if firstTimeBuyer = some true ∧ score ≥ 660 ∧ income < 141400 then
    [{ name := "Utah FirstHome", eligible := true,
       reason := "First-time buyer with qualifying credit and income",
       benefit := "Up to 6% down payment assistance" }]
   else [])
  ++ (if score ≥ 660 ∧ income < 141400 then
    [{ name := "Utah HomeAgain", eligible := true, reason := "Credit and income qualify",
       benefit := "Down payment assistance available" }]
   else [])

/-- Gap record (the interpolated `current` display string is omitted). -/
structure Gap where
  factor : String
  severity : String
  target : String
  pointsLost : ℤ
  potentialGain : ℤ
  actionRequired : String

/-- Stable insertion into a list sorted by descending potentialGain. -/
def insertGapDesc (g : Gap) : List Gap → List Gap
  | [] => [g]
  | h :: t => if h.potentialGain > g.potentialGain then h :: insertGapDesc g t else g :: h :: t

/-- Stable sort by descending potentialGain, modelling the JS stable
`Array.prototype.sort` with comparator `b.potentialGain - a.potentialGain`. -/
def sortGapsDesc : List Gap → List Gap
  | [] => []
  | g :: gs => insertGapDesc g (sortGapsDesc gs)

/-- Identify gaps: credit below 20 points, down payment below 10, DTI below
14, sorted by descending potential gain. -/
def identifyGaps (creditPoints downPaymentPoints dtiPoints : ℤ) : List Gap :=
  let gaps :=
    (if creditPoints < 20 then
      [{ factor := "credit", severity := if creditPoints < 10 then "high" else "medium",
         target := "680+", pointsLost := 30 - creditPoints,
         potentialGain := min 10 (30 - creditPoints),
         actionRequired := "Improve credit score to unlock better rates" }]
     else [])
    ++ (if downPaymentPoints < 10 then
      [{ factor := "down_payment",
         severity := if downPaymentPoints < 5 then "high" else "medium",
         target := "5%+", pointsLost := 20 - downPaymentPoints,
         potentialGain := min 7 (20 - downPaymentPoints),
         actionRequired := "Save more for down payment" }]
     else [])
    ++ (if dtiPoints < 14 then
      [{ factor := "dti", severity := if dtiPoints < 5 then "high" else "medium",
         target := "Under 43%", pointsLost := 25 - dtiPoints,
         potentialGain := min 10 (25 - dtiPoints),
         actionRequired := "Reduce debt or increase income" }]
     else [])
  sortGapsDesc gaps

/-- Recommendation (fixed title per category; description/impact display
strings omitted). -/
structure Recommendation where
  priority : ℕ
  category : String
  title : String

/-- Generate one recommendation per gap, in order. -/
def generateRecommendations (gaps : List Gap) : List Recommendation :=
  gaps.enum.map fun pair =>
    match pair.2.factor with
    | "credit" => { priority := pair.1 + 1, category := "credit",
                    title := "Boost Your Credit Score" }
    | "down_payment" => { priority := pair.1 + 1, category := "savings",
                          title := "Build Your Down Payment" }
    | "dti" => { priority := pair.1 + 1, category := "debt",
                 title := "Lower Your Debt-to-Income Ratio" }
    | _ => { priority := pair.1 + 1, category := "general",
             title := "Improve Your Profile" }

/-- Program limits (2025 Utah values) from the PROGRAM_LIMITS constant. -/
def PROGRAM_LIMITS_firstHome_incomeLimitLargeHousehold : ℚ := 141400

def PROGRAM_LIMITS_firstHome_minCreditScore : ℚ := 660

def PROGRAM_LIMITS_homeAgain_incomeLimit : ℚ := 141400

def PROGRAM_LIMITS_homeAgain_minCreditScore : ℚ := 660

def PROGRAM_LIMITS_fha_minCreditScore35Down : ℚ := 580

def PROGRAM_LIMITS_fha_minCreditScore10Down : ℚ := 500

/-- DPA eligibility booleans from checkDPAEligibility (reason/benefit display
strings, bestProgram and totalPotentialAssistance are never read by any
control flow modelled here and are omitted). -/
structure DPAEligibility where
  firstHomeEligible : Bool
  homeAgainEligible : Bool
  fhaEligible : Bool
  vaEligible : Bool

/-- Check DPA eligibility (Utah FirstHome, Utah HomeAgain, FHA, VA). -/
def checkDPAEligibility (creditScore : Option ℚ) (annualIncome : ℚ)
    (firstTimeBuyer : Option Bool) (veteranStatus : Option String) : DPAEligibility :=
  let score := creditScoreOr650 creditScore
  { firstHomeEligible :=
      decide (firstTimeBuyer = some true ∧ score ≥ PROGRAM_LIMITS_firstHome_minCreditScore ∧
        annualIncome ≤ PROGRAM_LIMITS_firstHome_incomeLimitLargeHousehold),
    homeAgainEligible :=
      decide (score ≥ PROGRAM_LIMITS_homeAgain_minCreditScore ∧
        annualIncome ≤ PROGRAM_LIMITS_homeAgain_incomeLimit),
    fhaEligible := decide (score ≥ PROGRAM_LIMITS_fha_minCreditScore10Down),
    vaEligible := isVeteranEligible veteranStatus }

/-- Calculate what monthly debt reduction is needed to hit a target DTI. -/
def calculateDebtReductionForDti (monthlyIncome currentDebts housingPayment targetDti : ℚ) : ℚ :=
  let maxTotalObligations := monthlyIncome * (targetDti / 100)
  let currentTotal := housingPayment + currentDebts
  let reduction := currentTotal - maxTotalObligations
  max 0 (jsRound reduction)

/-- Calculate what monthly income increase is needed to hit a target DTI. -/
def calculateIncomeForDti (currentIncome monthlyDebts housingPayment targetDti : ℚ) : ℚ :=
  let totalObligations := housingPayment + monthlyDebts
  let requiredIncome := totalObligations / (targetDti / 100)
  max 0 (jsRound (requiredIncome - currentIncome))

/-- Calculate current DTI (rounded percentage). -/
def calculateCurrentDti (monthlyIncome monthlyDebts housingPayment : ℚ) : ℚ :=
  jsRound ((housingPayment + monthlyDebts) / monthlyIncome * 100)

/-- One clamped update of the affordability fixed-point iteration. -/
def dtiPriceStep (maxHousingPayment downPaymentPercent price : ℚ) : ℚ :=
  let payment := estimateMonthlyPayment price downPaymentPercent
  max 100000 (min 2000000 (price * (maxHousingPayment / payment)))

/-- The 20-step iteration loop of calculateMaxPriceForDti. -/
def dtiLoop (maxHousingPayment downPaymentPercent : ℚ) : ℕ → ℚ → ℚ
  | 0, price => price
  | n + 1, price => dtiLoop maxHousingPayment downPaymentPercent n
      (dtiPriceStep maxHousingPayment downPaymentPercent price)

/-- Calculate max affordable price given a target DTI: 0 when debts alone
exceed the ceiling, otherwise 20 clamped fixed-point iterations from a
$300,000 guess, rounded to the nearest $5,000. -/
def calculateMaxPriceForDti (monthlyIncome monthlyDebts targetDti downPaymentPercent : ℚ) : ℚ :=
  let maxTotalObligations := monthlyIncome * (targetDti / 100)
  let maxHousingPayment := maxTotalObligations - monthlyDebts
  if maxHousingPayment ≤ 0 then 0
  else jsRound (dtiLoop maxHousingPayment downPaymentPercent 20 300000 / 5000) * 5000

/-- Solution variants (display strings and the timeline string omitted;
the numeric payloads are kept). -/
inductive SolutionType where
  | ADJUST_PRICE
  | PAY_DOWN_DEBT
  | INCREASE_INCOME
  | SAVE_MORE
  | IMPROVE_CREDIT
  | DPA_PROGRAMS
  | COMBINATION
deriving DecidableEq

structure Solution where
  type : SolutionType
  newPrice : Option ℚ
  monthlyPayment : Option ℚ
  debtReduction : Option ℚ
  incomeIncrease : Option ℚ

/-- A Solution carrying only its tag. -/
def mkSolution (t : SolutionType) : Solution :=
  { type := t, newPrice := none, monthlyPayment := none, debtReduction := none,
    incomeIncrease := none }

/-- An ADJUST_PRICE solution with its numeric payloads. -/
def adjustPriceSolution (newPrice monthlyPayment : ℚ) : Solution :=
  { type := .ADJUST_PRICE, newPrice := some newPrice, monthlyPayment := some monthlyPayment,
    debtReduction := none, incomeIncrease := none }

/-- A PAY_DOWN_DEBT solution with its numeric payload. -/
def payDownDebtSolution (debtReduction : ℚ) : Solution :=
  { type := .PAY_DOWN_DEBT, newPrice := none, monthlyPayment := none,
    debtReduction := some debtReduction, incomeIncrease := none }

/-- An INCREASE_INCOME solution with its numeric payload. -/
def increaseIncomeSolution (incomeIncrease : ℚ) : Solution :=
  { type := .INCREASE_INCOME, newPrice := none, monthlyPayment := none,
    debtReduction := none, incomeIncrease := some incomeIncrease }

inductive BlockerType where
  | DTI
  | DOWN_PAYMENT
  | CREDIT
  | EMPLOYMENT
  | RESERVES
  | NONE
deriving DecidableEq

inductive BlockerSeverity where
  | critical
  | significant
  | minor
deriving DecidableEq

/-- PrimaryBlocker (headline/subheadline/currentValue/targetValue display
strings omitted). -/
structure PrimaryBlocker where
  type : BlockerType
  severity : BlockerSeverity
  solutions : List Solution

/-- JS `creditScore && creditScore < 660` (falsy for null and 0). -/
def creditTruthyBelow660 (creditScore : Option ℚ) : Bool :=
  match creditScore with
  | some c => !(c == 0) && decide (c < 660)
  | none => false

/-- Severe-DTI blocker (currentDti > 50): lower price to the 43% ceiling,
pay down debt, or increase income. -/
def dtiSevereBlocker (monthlyIncome monthlyDebts targetPrice : ℚ) : PrimaryBlocker :=
  let housingPayment := estimateMonthlyPayment targetPrice (35/1000)
  let currentDti := calculateCurrentDti monthlyIncome monthlyDebts housingPayment
  let affordablePrice := calculateMaxPriceForDti monthlyIncome monthlyDebts 43 (35/1000)
  let debtReduction := calculateDebtReductionForDti monthlyIncome monthlyDebts housingPayment 43
  let incomeIncrease := calculateIncomeForDti monthlyIncome monthlyDebts housingPayment 43
  { type := .DTI,
    severity := if currentDti > 57 then .critical else .significant,
    solutions :=
      (if affordablePrice > 0 ∧ affordablePrice < targetPrice then
        [adjustPriceSolution affordablePrice
          (jsRound (estimateMonthlyPayment affordablePrice (35/1000)))]
       else [])
      ++ (if debtReduction > 0 ∧ debtReduction ≤ monthlyDebts then
        [payDownDebtSolution debtReduction]
       else [])
      ++ (if incomeIncrease > 0 then
        [increaseIncomeSolution incomeIncrease]
       else []) }

/-- Moderate-DTI blocker (43 < currentDti ≤ 50): FHA note when eligible,
optionally a more comfortable 36%-DTI price. -/
def dtiModerateBlocker (dpaEligibility : DPAEligibility)
    (monthlyIncome monthlyDebts targetPrice : ℚ) : PrimaryBlocker :=
  let comfortablePrice := calculateMaxPriceForDti monthlyIncome monthlyDebts 36 (35/1000)
  { type := .DTI, severity := .minor,
    solutions :=
      (if dpaEligibility.fhaEligible then [mkSolution .DPA_PROGRAMS] else [])
      ++ (if comfortablePrice > 0 ∧ comfortablePrice < targetPrice * (9/10) then
        [adjustPriceSolution comfortablePrice
          (jsRound (estimateMonthlyPayment comfortablePrice (35/1000)))]
       else []) }

/-- Down-payment shortfall blocker (saved below the 3.5% minimum): lower
price matching savings, an unconditional savings plan, and a DPA suggestion
chosen by eligibility priority. -/
def downPaymentShortfallBlocker (dpaEligibility : DPAEligibility)
    (targetPrice saved minDownPayment : ℚ) : PrimaryBlocker :=
  let shortfall := minDownPayment - saved
  let affordableWithSavings := saved / (35/1000)
  { type := .DOWN_PAYMENT,
    severity := if shortfall > 20000 then .significant else .minor,
    solutions :=
      (if affordableWithSavings ≥ 200000 then
        [adjustPriceSolution (jsRound (affordableWithSavings / 5000) * 5000)
          (jsRound (estimateMonthlyPayment affordableWithSavings (35/1000)))]
       else [])
      ++ [mkSolution .SAVE_MORE]
      ++ (if dpaEligibility.firstHomeEligible then [mkSolution .DPA_PROGRAMS]
          else if dpaEligibility.homeAgainEligible then [mkSolution .DPA_PROGRAMS]
          else if dpaEligibility.fhaEligible ∧ ¬dpaEligibility.firstHomeEligible ∧
              ¬dpaEligibility.homeAgainEligible then
            [mkSolution .DPA_PROGRAMS]
          else []) }

/-- Thin-down-payment blocker (points ≤ 7 while meeting the minimum): lower
price for a 5% cushion, save toward 5%, and a DPA suggestion (a reasons list
drives the final fallback). -/
def thinDownPaymentBlocker (dpaEligibility : DPAEligibility) (creditScore : Option ℚ)
    (downPaymentPoints : ℤ) (annualIncome targetPrice saved : ℚ) : PrimaryBlocker :=
  let comfortablePrice := saved / (5/100)
  let targetSaved := targetPrice * (5/100)
  let additionalNeeded := targetSaved - saved
  let reasons : List String :=
    (if annualIncome > PROGRAM_LIMITS_homeAgain_incomeLimit then ["income under $141k"] else [])
    ++ (if creditTruthyBelow660 creditScore then ["660+ credit"] else [])
  { type := .DOWN_PAYMENT,
    severity := if downPaymentPoints ≤ 3 then .significant else .minor,
    solutions :=
      (if comfortablePrice ≥ 200000 ∧ comfortablePrice < targetPrice * (9/10) then
        [adjustPriceSolution (jsRound (comfortablePrice / 5000) * 5000)
          (jsRound (estimateMonthlyPayment comfortablePrice (35/1000)))]
       else [])
      ++ (if additionalNeeded > 0 then [mkSolution .SAVE_MORE] else [])
      ++ (if dpaEligibility.firstHomeEligible then [mkSolution .DPA_PROGRAMS]
          else if dpaEligibility.homeAgainEligible then [mkSolution .DPA_PROGRAMS]
          else if reasons.length > 0 then [mkSolution .DPA_PROGRAMS]
          else []) }

/-- Poor-credit blocker (known score below 620): FHA-today note when ≥ 580,
plus an unconditional credit-improvement note. -/
def poorCreditBlocker (dpaEligibility : DPAEligibility) (c : ℚ) : PrimaryBlocker :=
  { type := .CREDIT,
    severity := if c < 580 then .critical else .significant,
    solutions :=
      (if dpaEligibility.fhaEligible ∧ c ≥ 580 then [mkSolution .DPA_PROGRAMS] else [])
      ++ [mkSolution .IMPROVE_CREDIT] }

/-- Fair-credit blocker (known score in [620, 660)): a conventional-loans
note plus a credit-improvement note (the source pushes IMPROVE_CREDIT in both
arms of its income test, with different display text). -/
def fairCreditBlocker (annualIncome : ℚ) : PrimaryBlocker :=
  { type := .CREDIT, severity := .minor,
    solutions :=
      [mkSolution .DPA_PROGRAMS]
      ++ (if annualIncome ≤ PROGRAM_LIMITS_homeAgain_incomeLimit then
            [mkSolution .IMPROVE_CREDIT]
          else [mkSolution .IMPROVE_CREDIT]) }

/-- Detect the primary blocker: a strict ordered decision tree (severe DTI,
moderate DTI, down-payment shortfall, thin down payment, poor credit, fair
credit, none). The creditPoints and dtiPoints parameters are declared by the
source but never read. -/
def detectPrimaryBlocker (creditScore : Option ℚ) (creditPoints dtiPoints downPaymentPoints : ℤ)
    (monthlyIncome monthlyDebts targetPrice saved : ℚ) (veteranStatus : Option String)
    (annualIncome : ℚ) (firstTimeBuyer : Option Bool) : Option PrimaryBlocker :=
  let dpaEligibility := checkDPAEligibility creditScore annualIncome firstTimeBuyer veteranStatus
  let housingPayment := estimateMonthlyPayment targetPrice (35/1000)
  let currentDti := calculateCurrentDti monthlyIncome monthlyDebts housingPayment
  if currentDti > 50 then
    some (dtiSevereBlocker monthlyIncome monthlyDebts targetPrice)
  else if currentDti > 43 ∧ currentDti ≤ 50 then
    some (dtiModerateBlocker dpaEligibility monthlyIncome monthlyDebts targetPrice)
  else
    let isVetEligible := isVeteranEligible veteranStatus
    let minDownPayment := if isVetEligible then 0 else targetPrice * (35/1000)
    if saved < minDownPayment then
      some (downPaymentShortfallBlocker dpaEligibility targetPrice saved minDownPayment)
    else if downPaymentPoints ≤ 7 ∧ isVetEligible = false then
      some (thinDownPaymentBlocker dpaEligibility creditScore downPaymentPoints annualIncome
        targetPrice saved)
    else
      match creditScore with
      | some c =>
        if c < 620 then some (poorCreditBlocker dpaEligibility c)
        else if c ≥ 620 ∧ c < 660 then some (fairCreditBlocker annualIncome)
        else none
      | none => none

/-- Internal score result used by the sweet spot (total/status/timeline). -/
structure InternalScore where
  total : ℤ
  status : ScoreStatus
  timeline : String

/-- Internal score calculation without path-forward data (to avoid recursion). -/
def calculateScoreInternal (input : ScoreInput) : InternalScore :=
  let creditScore := getCreditScore input.creditScoreRange
  let income := getIncomeAmount input.annualIncome
  let targetPrice := getPriceAmount input.priceRange
  let saved := getDownPaymentAmount input.downPayment
  let monthlyDebts := getMonthlyDebtAmount input.monthlyDebts
  let monthlyIncome := income / 12
  let creditPoints := calculateCreditPoints creditScore
  let dtiPoints := calculateDtiPoints monthlyIncome targetPrice monthlyDebts
  let downPaymentPoints := calculateDownPaymentPoints saved targetPrice input.veteranStatus
  let employmentPoints := calculateEmploymentPoints
  let reservesPoints := calculateReservesPoints saved targetPrice
  let bonusPoints := calculateBonusPoints input.firstTimeBuyer input.veteranStatus
  let total := max 0 (min 100
    (creditPoints + dtiPoints + downPaymentPoints + employmentPoints + reservesPoints + bonusPoints))
  { total := total, status := getStatus total, timeline := getTimeline total }

/-- Helper to convert a price amount back to a range token. -/
def getPriceRangeFromAmount (price : ℚ) : String :=
  if price < 400000 then "under-400k"
  else if price < 500000 then "400k-500k"
  else if price < 600000 then "500k-600k"
  else if price < 700000 then "600k-700k"
  else if price < 800000 then "700k-800k"
  else if price < 900000 then "800k-900k"
  else if price < 1000000 then "900k-1m"
  else "1m-plus"

structure SweetSpotComparison where
  priceDifference : ℚ
  scoreDifference : ℤ
  paymentDifference : ℚ

structure SweetSpot where
  recommendedPrice : ℚ
  scoreAtPrice : ℤ
  statusAtPrice : ScoreStatus
  timelineAtPrice : String
  monthlyPayment : ℚ
  downPaymentNeeded : ℚ
  dtiAtPrice : ℚ
  whyThisWorks : String
  comparedToTarget : SweetSpotComparison

/-- Calculate the sweet spot: compare the target against the comfortable
(36% DTI) and stretch (43% DTI) ceilings, round the recommendation to the
nearest $5,000, and re-score at that price via its range bucket. -/
def calculateSweetSpot (monthlyIncome monthlyDebts saved targetPrice : ℚ)
    (input : ScoreInput) : SweetSpot :=
  let comfortablePrice := calculateMaxPriceForDti monthlyIncome monthlyDebts 36 (35/1000)
  let stretchPrice := calculateMaxPriceForDti monthlyIncome monthlyDebts 43 (35/1000)
  let recommendedPriceAndWhy : ℚ × String :=
    if targetPrice ≤ comfortablePrice then
      (targetPrice, "Your target price fits comfortably within your budget with room to spare.")
    else if targetPrice ≤ stretchPrice then
      (comfortablePrice, "This price gives you financial breathing room while still getting a great home.")
    else
      (stretchPrice, "This is the maximum lenders will typically approve. It keeps you within guidelines.")
  let recommendedPrice := jsRound (recommendedPriceAndWhy.1 / 5000) * 5000
  let priceRange := getPriceRangeFromAmount recommendedPrice
  let scoreAtRecommended := calculateScoreInternal { input with priceRange := some priceRange }
  let payment := estimateMonthlyPayment recommendedPrice (35/1000)
  let dtiAtPrice := calculateCurrentDti monthlyIncome monthlyDebts payment
  let targetPayment := estimateMonthlyPayment targetPrice (35/1000)
  let targetScore := calculateScoreInternal input
  { recommendedPrice := recommendedPrice,
    scoreAtPrice := scoreAtRecommended.total,
    statusAtPrice := scoreAtRecommended.status,
    timelineAtPrice := scoreAtRecommended.timeline,
    monthlyPayment := jsRound payment,
    downPaymentNeeded := jsRound (recommendedPrice * (35/1000)),
    dtiAtPrice := dtiAtPrice,
    whyThisWorks := recommendedPriceAndWhy.2,
    comparedToTarget :=
      { priceDifference := targetPrice - recommendedPrice,
        scoreDifference := scoreAtRecommended.total - targetScore.total,
        paymentDifference := jsRound (targetPayment - payment) } }

inductive RequiredChangeType where
  | debt_reduction
  | income_increase
  | savings_increase
  | credit_improvement
deriving DecidableEq

/-- RequiredChange (description/impact display strings omitted). -/
structure RequiredChange where
  type : RequiredChangeType
  amount : ℚ
deriving DecidableEq

structure PathToGoal where
  targetPrice : ℚ
  currentScore : ℤ
  requiredChanges : List RequiredChange
  estimatedTimeline : String

/-- The required-changes list computed by calculatePathToGoal at the target
price: DTI fixes when the rounded DTI exceeds 43, then a savings increase
when saved is below 3.5% of the target. -/
def computeRequiredChanges (monthlyIncome monthlyDebts saved targetPrice : ℚ) :
    List RequiredChange :=
  let housingPayment := estimateMonthlyPayment targetPrice (35/1000)
  let currentDti := calculateCurrentDti monthlyIncome monthlyDebts housingPayment
  let dtiChanges :=
    if currentDti > 43 then
      let debtReduction := calculateDebtReductionForDti monthlyIncome monthlyDebts housingPayment 43
      let incomeIncrease := calculateIncomeForDti monthlyIncome monthlyDebts housingPayment 43
      (if debtReduction > 0 ∧ debtReduction ≤ monthlyDebts then
        [{ type := .debt_reduction, amount := debtReduction }]
       else [])
      ++ (if incomeIncrease > 0 then
        [{ type := .income_increase, amount := incomeIncrease }]
       else [])
    else []
  let downPaymentNeeded := targetPrice * (35/1000)
  dtiChanges ++
    (if saved < downPaymentNeeded then
      [{ type := .savings_increase, amount := downPaymentNeeded - saved }]
     else [])

/-- Calculate the path to the goal price: null when the target is within
$10,000 of the sweet spot, below it, or needs no changes. -/
def calculatePathToGoal (monthlyIncome monthlyDebts saved targetPrice : ℚ)
    (sweetSpot : SweetSpot) (currentScore : ℤ) : Option PathToGoal :=
  if |targetPrice - sweetSpot.recommendedPrice| < 10000 then none
  else if targetPrice < sweetSpot.recommendedPrice then none
  else
    let requiredChanges := computeRequiredChanges monthlyIncome monthlyDebts saved targetPrice
    if requiredChanges = [] then none
    else
      let estimatedMonths : ℚ := requiredChanges.foldl (fun acc change =>
        match change.type with
        | .debt_reduction => max acc (jsCeil (change.amount * 12 / 1000))
        | .savings_increase => max acc (jsCeil (change.amount / 500))
        | .income_increase => max acc 6
        | .credit_improvement => acc) 0
      let estimatedTimeline :=
        if estimatedMonths ≤ 3 then "1-3 months"
        else if estimatedMonths ≤ 6 then "3-6 months"
        else if estimatedMonths ≤ 12 then "6-12 months"
        else "12+ months"
      some { targetPrice := targetPrice, currentScore := currentScore,
             requiredChanges := requiredChanges, estimatedTimeline := estimatedTimeline }

structure ScoreBreakdown where
  credit : ℤ
  dti : ℤ
  downPayment : ℤ
  employment : ℤ
  reserves : ℤ
  bonus : ℤ
  penalty : ℤ
deriving DecidableEq

structure ParsedValues where
  creditScore : Option ℚ
  monthlyIncome : ℚ
  annualIncome : ℚ
  monthlyDebts : ℚ
  targetPrice : ℚ
  savedAmount : ℚ
  currentDti : ℚ

structure ScoreResult where
  total : ℤ
  status : ScoreStatus
  timeline : String
  color : String
  breakdown : ScoreBreakdown
  programs : List String
  programDetails : List ProgramDetail
  gaps : List Gap
  recommendations : List Recommendation
  primaryBlocker : Option PrimaryBlocker
  sweetSpot : SweetSpot
  pathToGoal : Option PathToGoal
  parsedValues : ParsedValues

/-- Main scoring function. -/
def calculateScore (input : ScoreInput) : ScoreResult :=
  let creditScore := getCreditScore input.creditScoreRange
  let income := getIncomeAmount input.annualIncome
  let targetPrice := getPriceAmount input.priceRange
  let saved := getDownPaymentAmount input.downPayment
  let monthlyDebts := getMonthlyDebtAmount input.monthlyDebts
  let monthlyIncome := income / 12
  let creditPoints := calculateCreditPoints creditScore
  let dtiPoints := calculateDtiPoints monthlyIncome targetPrice monthlyDebts
  let downPaymentPoints := calculateDownPaymentPoints saved targetPrice input.veteranStatus
  let employmentPoints := calculateEmploymentPoints
  let reservesPoints := calculateReservesPoints saved targetPrice
  let bonusPoints := calculateBonusPoints input.firstTimeBuyer input.veteranStatus
  let penaltyPoints : ℤ := 0
  let baseScore := creditPoints + dtiPoints + downPaymentPoints + employmentPoints + reservesPoints
  let total := max 0 (min 100 (baseScore + bonusPoints - penaltyPoints))
  let status := getStatus total
  let timeline := getTimeline total
  let color := getColor status
  let programDetails := matchPrograms creditScore input.firstTimeBuyer input.veteranStatus income
  let programs := (programDetails.filter fun p => p.eligible).map fun p => p.name
  let gaps := identifyGaps creditPoints downPaymentPoints dtiPoints
  let recommendations := generateRecommendations gaps
  let housingPayment := estimateMonthlyPayment targetPrice (35/1000)
  let currentDti := calculateCurrentDti monthlyIncome monthlyDebts housingPayment
  let primaryBlocker := detectPrimaryBlocker creditScore creditPoints dtiPoints downPaymentPoints
    monthlyIncome monthlyDebts targetPrice saved input.veteranStatus income input.firstTimeBuyer
  let sweetSpot := calculateSweetSpot monthlyIncome monthlyDebts saved targetPrice input
  let pathToGoal := calculatePathToGoal monthlyIncome monthlyDebts saved targetPrice sweetSpot total
  { total := total, status := status, timeline := timeline, color := color,
    breakdown :=
      { credit := creditPoints, dti := dtiPoints, downPayment := downPaymentPoints,
        employment := employmentPoints, reserves := reservesPoints, bonus := bonusPoints,
        penalty := penaltyPoints },
    programs := programs, programDetails := programDetails, gaps := gaps,
    recommendations := recommendations, primaryBlocker := primaryBlocker,
    sweetSpot := sweetSpot, pathToGoal := pathToGoal,
    parsedValues :=
      { creditScore := creditScore, monthlyIncome := monthlyIncome, annualIncome := income,
        monthlyDebts := monthlyDebts, targetPrice := targetPrice, savedAmount := saved,
        currentDti := currentDti } }

/-- Calculate score at a specific price point (for the slider): the override
price is bucketed back to a range token and calculateScore is re-invoked. -/
def calculateScoreAtPrice (input : ScoreInput) (overridePrice : ℚ) : ScoreResult :=
  calculateScore { input with priceRange := some (getPriceRangeFromAmount overridePrice) }

/-- Convert an exact credit score to a range token (reverse mapping). -/
def getCreditScoreRange (score : Option ℚ) : Option String :=
  match score with
  | none => none
  | some s =>
    if s ≥ 740 then some "740-plus"
    else if s ≥ 700 then some "700-739"
    else if s ≥ 660 then some "660-699"
    else if s ≥ 620 then some "620-659"
    else if s ≥ 580 then some "580-619"
    else some "below-580"

/-- Convert an exact annual income to a range token (reverse mapping). -/
def getIncomeRange (income : ℚ) : String :=
  if income ≥ 220000 then "220k-plus"
  else if income ≥ 180000 then "180k-220k"
  else if income ≥ 150000 then "150k-180k"
  else if income ≥ 100000 then "100k-150k"
  else if income ≥ 80000 then "80k-100k"
  else if income ≥ 60000 then "60k-80k"
  else if income ≥ 40000 then "40k-60k"
  else "under-40k"

/-- Convert an exact down payment amount to a range token (reverse mapping). -/
def getDownPaymentRange (amount : ℚ) : String :=
  if amount ≥ 260000 then "260k-plus"
  else if amount ≥ 220000 then "220k-260k"
  else if amount ≥ 180000 then "180k-220k"
  else if amount ≥ 140000 then "140k-180k"
  else if amount ≥ 100000 then "100k-140k"
  else if amount ≥ 75000 then "75k-100k"
  else if amount ≥ 50000 then "50k-75k"
  else if amount ≥ 25000 then "25k-50k"
  else if amount ≥ 10000 then "10k-25k"
  else "under-10k"

/-- Convert an exact monthly debt amount to a range token (reverse mapping). -/
def getMonthlyDebtRange (debt : ℚ) : String :=
  if debt ≥ 3000 then "3000-plus"
  else if debt ≥ 2500 then "2500-3000"
  else if debt ≥ 2000 then "2000-2500"
  else if debt ≥ 1000 then "1000-2000"
  else if debt ≥ 500 then "500-1000"
  else if debt ≥ 250 then "250-500"
  else if debt > 0 then "under-250"
  else "none"

/-
Helper lemmas.
-/

theorem jsRound_intCast (k : ℤ) : jsRound (k : ℚ) = (k : ℚ) := by
  unfold jsRound
  rw [add_comm, Int.floor_add_int]
  norm_num

theorem jsRound5000_of_multiple (k : ℤ) :
    jsRound (((k : ℚ) * 5000) / 5000) * 5000 = (k : ℚ) * 5000 := by
  have h : ((k : ℚ) * 5000) / 5000 = (k : ℚ) := by
    field_simp
  rw [h, jsRound_intCast]

theorem dtiPriceStep_bounds (h dpp p : ℚ) :
    100000 ≤ dtiPriceStep h dpp p ∧ dtiPriceStep h dpp p ≤ 2000000 := by
  unfold dtiPriceStep
  refine ⟨le_max_left _ _, max_le (by norm_num) (min_le_left _ _)⟩

theorem dtiLoop_bounds (h dpp : ℚ) (n : ℕ) (hn : 1 ≤ n) (p : ℚ) :
    100000 ≤ dtiLoop h dpp n p ∧ dtiLoop h dpp n p ≤ 2000000 := by
  induction n generalizing p with
  | zero => exact absurd hn (by norm_num)
  | succ m ih =>
    rcases Nat.eq_zero_or_pos m with h0 | hm
    · subst h0
      simpa [dtiLoop] using dtiPriceStep_bounds h dpp p
    · simpa [dtiLoop] using ih hm (dtiPriceStep h dpp p)

theorem calculateMaxPriceForDti_multiple (mi md t dpp : ℚ) :
    ∃ j : ℤ, calculateMaxPriceForDti mi md t dpp = (j : ℚ) * 5000 := by
  simp only [calculateMaxPriceForDti]
  split_ifs
  · exact ⟨0, by norm_num⟩
  · exact ⟨⌊dtiLoop (mi * (t / 100) - md) dpp 20 300000 / 5000 + 1/2⌋, rfl⟩

theorem calculateMaxPriceForDti_pos_bounds (mi md t dpp : ℚ)
    (h : ¬(mi * (t / 100) - md ≤ 0)) :
    100000 ≤ calculateMaxPriceForDti mi md t dpp ∧
      calculateMaxPriceForDti mi md t dpp ≤ 2000000 := by
  unfold calculateMaxPriceForDti
  rw [if_neg h]
  obtain ⟨hlo, hhi⟩ := dtiLoop_bounds (mi * (t / 100) - md) dpp 20 (by norm_num) 300000
  set L := dtiLoop (mi * (t / 100) - md) dpp 20 300000 with hL
  unfold jsRound
  constructor
  · have h20 : (20 : ℤ) ≤ ⌊L / 5000 + 1/2⌋ := by
      rw [Int.le_floor]
      have : (20 : ℚ) ≤ L / 5000 := by
        rw [le_div_iff (by norm_num : (0:ℚ) < 5000)]
        linarith
      push_cast
      linarith
    have : (20 : ℚ) ≤ (⌊L / 5000 + 1/2⌋ : ℚ) := by exact_mod_cast h20
    nlinarith
  · have h400 : ⌊L / 5000 + 1/2⌋ ≤ (400 : ℤ) := by
      have : ⌊L / 5000 + 1/2⌋ < (401 : ℤ) := by
        rw [Int.floor_lt]
        have : L / 5000 ≤ 400 := by
          rw [div_le_iff (by norm_num : (0:ℚ) < 5000)]
          linarith
        push_cast
        linarith
      omega
    have : (⌊L / 5000 + 1/2⌋ : ℚ) ≤ (400 : ℚ) := by exact_mod_cast h400
    nlinarith

/-- C3: calculateMaxPriceForDti returns 0 exactly when income times the DTI
target (as a fraction) does not exceed the monthly debts; otherwise the
result is a multiple of $5,000 lying in [100000, 2000000]. -/
theorem c3_maxPrice_zero_iff_and_bounds (mi md t dpp : ℚ) :
    (calculateMaxPriceForDti mi md t dpp = 0 ↔ mi * t / 100 ≤ md) ∧
    (mi * t / 100 ≤ md ∨
      ((∃ j : ℤ, calculateMaxPriceForDti mi md t dpp = (j : ℚ) * 5000) ∧
        100000 ≤ calculateMaxPriceForDti mi md t dpp ∧
        calculateMaxPriceForDti mi md t dpp ≤ 2000000)) := by
  have hc : mi * (t / 100) - md ≤ 0 ↔ mi * t / 100 ≤ md := by
    constructor <;> intro h <;> nlinarith [h]
  by_cases h : mi * (t / 100) - md ≤ 0
  · have hz : calculateMaxPriceForDti mi md t dpp = 0 := by
      unfold calculateMaxPriceForDti
      rw [if_pos h]
    exact ⟨⟨fun _ => hc.mp h, fun _ => hz⟩, Or.inl (hc.mp h)⟩
  · obtain ⟨hlo, hhi⟩ := calculateMaxPriceForDti_pos_bounds mi md t dpp h
    refine ⟨⟨fun he => absurd he (by linarith), fun hle => absurd (hc.mpr hle) h⟩,
      Or.inr ⟨calculateMaxPriceForDti_multiple mi md t dpp, hlo, hhi⟩⟩

theorem getPriceAmount_5000 (r : Option String) :
    ∃ k : ℤ, 0 < k ∧ getPriceAmount r = (k : ℚ) * 5000 := by
  cases r with
  | none => exact ⟨100, by norm_num, by norm_num [getPriceAmount]⟩
  | some s =>
    simp only [getPriceAmount]
    split
    · exact ⟨70, by norm_num, by norm_num⟩
    · exact ⟨90, by norm_num, by norm_num⟩
    · exact ⟨110, by norm_num, by norm_num⟩
    · exact ⟨130, by norm_num, by norm_num⟩
    · exact ⟨150, by norm_num, by norm_num⟩
    · exact ⟨170, by norm_num, by norm_num⟩
    · exact ⟨190, by norm_num, by norm_num⟩
    · exact ⟨240, by norm_num, by norm_num⟩
    · exact ⟨100, by norm_num, by norm_num⟩

theorem calculateSweetSpot_rec_le (mi md sv t : ℚ) (input : ScoreInput)
    (ht : ∃ k : ℤ, 0 < k ∧ t = (k : ℚ) * 5000) :
    (calculateSweetSpot mi md sv t input).recommendedPrice ≤ t := by
  obtain ⟨k, hk, hkt⟩ := ht
  have hrec : (calculateSweetSpot mi md sv t input).recommendedPrice =
      jsRound ((if t ≤ calculateMaxPriceForDti mi md 36 (35/1000) then
          (t, "Your target price fits comfortably within your budget with room to spare.")
        else if t ≤ calculateMaxPriceForDti mi md 43 (35/1000) then
          (calculateMaxPriceForDti mi md 36 (35/1000),
            "This price gives you financial breathing room while still getting a great home.")
        else
          (calculateMaxPriceForDti mi md 43 (35/1000),
            "This is the maximum lenders will typically approve. It keeps you within guidelines.")).1
        / 5000) * 5000 := rfl
  rw [hrec]
  split_ifs with h1 h2
  · rw [hkt, jsRound5000_of_multiple]
  · obtain ⟨j, hj⟩ := calculateMaxPriceForDti_multiple mi md 36 (35/1000)
    simp only
    rw [hj, jsRound5000_of_multiple]
    rw [hj] at h1
    linarith [not_le.mp h1]
  · obtain ⟨j, hj⟩ := calculateMaxPriceForDti_multiple mi md 43 (35/1000)
    simp only
    rw [hj, jsRound5000_of_multiple]
    rw [hj] at h2
    linarith [not_le.mp h2]

/-- C2: for every ScoreInput the recommended sweet-spot price, after rounding
to the nearest $5,000, is at most the resolved target price. -/
theorem c2_sweetSpot_le_target (input : ScoreInput) :
    (calculateScore input).sweetSpot.recommendedPrice ≤
      (calculateScore input).parsedValues.targetPrice := by
  have h1 : (calculateScore input).sweetSpot =
      calculateSweetSpot (getIncomeAmount input.annualIncome / 12)
        (getMonthlyDebtAmount input.monthlyDebts) (getDownPaymentAmount input.downPayment)
        (getPriceAmount input.priceRange) input := rfl
  have h2 : (calculateScore input).parsedValues.targetPrice =
      getPriceAmount input.priceRange := rfl
  rw [h1, h2]
  exact calculateSweetSpot_rec_le _ _ _ _ _ (getPriceAmount_5000 _)

/-- C10: calculateScoreAtPrice depends on the override price only through its
price-range bucket, so two prices in the same band give identical results. -/
theorem c10_price_bucket_invariance (input : ScoreInput) (p1 p2 : ℚ)
    (h : getPriceRangeFromAmount p1 = getPriceRangeFromAmount p2) :
    calculateScoreAtPrice input p1 = calculateScoreAtPrice input p2 := by
  unfold calculateScoreAtPrice
  rw [h]

def c10Input : ScoreInput :=
  ⟨none, none, none, none, none, none, none⟩

theorem c10_witness :
    getPriceRangeFromAmount (510000 : ℚ) = getPriceRangeFromAmount (590000 : ℚ) ∧
    calculateScoreAtPrice c10Input 510000 = calculateScoreAtPrice c10Input 590000 := by
  have h : getPriceRangeFromAmount (510000 : ℚ) = getPriceRangeFromAmount (590000 : ℚ) := by
    norm_num [getPriceRangeFromAmount]
  exact ⟨h, c10_price_bucket_invariance c10Input 510000 590000 h⟩

/-
Range token lists (the keys of the forward lookup tables).
-/

def creditRangeTokens : List String :=
  ["below-580", "580-619", "620-659", "660-699", "700-739", "740-plus"]

def incomeRangeTokens : List String :=
  ["under-40k", "40k-60k", "60k-80k", "80k-100k", "100k-150k", "150k-180k", "180k-220k",
   "220k-plus"]

def priceRangeTokens : List String :=
  ["under-400k", "400k-500k", "500k-600k", "600k-700k", "700k-800k", "800k-900k", "900k-1m",
   "1m-plus"]

def downPaymentRangeTokens : List String :=
  ["under-10k", "10k-25k", "25k-50k", "50k-75k", "75k-100k", "100k-140k", "140k-180k",
   "180k-220k", "220k-260k", "260k-plus"]

def monthlyDebtRangeTokens : List String :=
  ["none", "under-250", "250-500", "500-1000", "1000-2000", "2000-2500", "2500-3000",
   "3000-plus"]

/-- C8 counterexample: the credit token "not-sure" resolves to null, and the
inverse bucketing of null is null, not "not-sure", so the round trip fails
for this defined token. -/
theorem c8_counterexample :
    getCreditScoreRange (getCreditScore (some "not-sure")) ≠ some "not-sure" := by
  simp [getCreditScore, getCreditScoreRange]

/-- C8: for every defined token of the five categorical dimensions that
resolves to a number, applying the forward resolver and then the inverse
bucketing function returns the token again; the credit token "not-sure"
resolves to null, which the inverse maps back to null. -/
theorem c8_roundTrip_amended :
    (creditRangeTokens.all fun t =>
      getCreditScoreRange (getCreditScore (some t)) == some t) = true ∧
    (incomeRangeTokens.all fun t => getIncomeRange (getIncomeAmount (some t)) == t) = true ∧
    (priceRangeTokens.all fun t => getPriceRangeFromAmount (getPriceAmount (some t)) == t) = true ∧
    (downPaymentRangeTokens.all fun t =>
      getDownPaymentRange (getDownPaymentAmount (some t)) == t) = true ∧
    (monthlyDebtRangeTokens.all fun t =>
      getMonthlyDebtRange (getMonthlyDebtAmount (some t)) == t) = true ∧
    getCreditScoreRange (getCreditScore (some "not-sure")) = none := by
  refine ⟨?_, ?_, ?_, ?_, ?_, ?_⟩
  · norm_num [creditRangeTokens, getCreditScore, getCreditScoreRange]
  · norm_num [incomeRangeTokens, getIncomeAmount, getIncomeRange]
  · norm_num [priceRangeTokens, getPriceAmount, getPriceRangeFromAmount]
  · norm_num [downPaymentRangeTokens, getDownPaymentAmount, getDownPaymentRange]
  · norm_num [monthlyDebtRangeTokens, getMonthlyDebtAmount, getMonthlyDebtRange]
  · simp [getCreditScore, getCreditScoreRange]

/-
matchPrograms structure lemmas (for C4).
-/

theorem matchPrograms_names_sublist (cs : Option ℚ) (ftb : Option Bool) (vs : Option String)
    (inc : ℚ) :
    ((matchPrograms cs ftb vs inc).map fun pd => pd.name).Sublist
      ["VA Loan", "FHA Loan", "Conventional Loan", "Utah FirstHome", "Utah HomeAgain"] := by
  have hcat : ["VA Loan", "FHA Loan", "Conventional Loan", "Utah FirstHome", "Utah HomeAgain"] =
      (((["VA Loan"] ++ ["FHA Loan"]) ++ ["Conventional Loan"]) ++ ["Utah FirstHome"]) ++
        ["Utah HomeAgain"] := rfl
  rw [hcat]
  simp only [matchPrograms, List.map_append]
  refine List.Sublist.append (List.Sublist.append (List.Sublist.append
    (List.Sublist.append ?_ ?_) ?_) ?_) ?_ <;> split_ifs <;> simp

theorem matchPrograms_all_eligible (cs : Option ℚ) (ftb : Option Bool) (vs : Option String)
    (inc : ℚ) :
    ((matchPrograms cs ftb vs inc).all fun pd => pd.eligible) = true := by
  simp only [matchPrograms, List.all_append]
  split_ifs <;> simp

/-- C4: the programDetails list contains only the eligible programs, in fixed
catalog order (VA, FHA, Conventional, Utah FirstHome, Utah HomeAgain); every
record carries eligible = true (ineligible programs are omitted entirely),
and the short programs list is exactly the names of these records. -/
theorem c4_programs_structure (input : ScoreInput) :
    (((calculateScore input).programDetails.map fun pd => pd.name).Sublist
      ["VA Loan", "FHA Loan", "Conventional Loan", "Utah FirstHome", "Utah HomeAgain"]) ∧
    ((calculateScore input).programDetails.all fun pd => pd.eligible) = true ∧
    (calculateScore input).programs =
      ((calculateScore input).programDetails.map fun pd => pd.name) := by
  have hpd : (calculateScore input).programDetails =
      matchPrograms (getCreditScore input.creditScoreRange) input.firstTimeBuyer
        input.veteranStatus (getIncomeAmount input.annualIncome) := rfl
  have hpr : (calculateScore input).programs =
      (((matchPrograms (getCreditScore input.creditScoreRange) input.firstTimeBuyer
        input.veteranStatus (getIncomeAmount input.annualIncome)).filter
          fun p => p.eligible).map fun p => p.name) := rfl
  rw [hpd, hpr]
  refine ⟨matchPrograms_names_sublist _ _ _ _, matchPrograms_all_eligible _ _ _ _, ?_⟩
  have hall := matchPrograms_all_eligible (getCreditScore input.creditScoreRange)
    input.firstTimeBuyer input.veteranStatus (getIncomeAmount input.annualIncome)
  have hfilter : ((matchPrograms (getCreditScore input.creditScoreRange) input.firstTimeBuyer
      input.veteranStatus (getIncomeAmount input.annualIncome)).filter
        fun p => p.eligible) =
      matchPrograms (getCreditScore input.creditScoreRange) input.firstTimeBuyer
        input.veteranStatus (getIncomeAmount input.annualIncome) := by
    refine List.filter_eq_self.mpr ?_
    intro a ha
    exact List.all_eq_true.mp hall a ha
  rw [hfilter]

def c4Input : ScoreInput :=
  ⟨none, none, none, none, none, none, none⟩

/-- C4 counterexample: with every field null the resolved credit defaults to
650, so only FHA and Conventional are pushed: programDetails has 2 records,
not one per catalog program, and no record with eligible = false appears. -/
theorem c4_counterexample :
    (calculateScore c4Input).programDetails.length = 2 ∧
    ((calculateScore c4Input).programDetails.map fun pd => pd.name) =
      ["FHA Loan", "Conventional Loan"] := by
  have hpd : (calculateScore c4Input).programDetails =
      matchPrograms none none none 60000 := rfl
  rw [hpd]
  norm_num [matchPrograms, creditScoreOr650, isVeteranEligible]

/-
Resolver default and bound lemmas (for C9, C6).
-/

theorem getIncomeAmount_default (r : Option String)
    (h : ∀ t ∈ incomeRangeTokens, r ≠ some t) : getIncomeAmount r = 60000 := by
  cases r with
  | none => rfl
  | some s =>
    simp only [incomeRangeTokens, List.mem_cons, List.not_mem_nil] at h
    simp only [getIncomeAmount]
    split <;> simp_all

theorem getPriceAmount_default (r : Option String)
    (h : ∀ t ∈ priceRangeTokens, r ≠ some t) : getPriceAmount r = 500000 := by
  cases r with
  | none => rfl
  | some s =>
    simp only [priceRangeTokens, List.mem_cons, List.not_mem_nil] at h
    simp only [getPriceAmount]
    split <;> simp_all

theorem getDownPaymentAmount_default (r : Option String)
    (h : ∀ t ∈ downPaymentRangeTokens, r ≠ some t) : getDownPaymentAmount r = 20000 := by
  cases r with
  | none => rfl
  | some s =>
    simp only [downPaymentRangeTokens, List.mem_cons, List.not_mem_nil] at h
    simp only [getDownPaymentAmount]
    split <;> simp_all

theorem getMonthlyDebtAmount_default (r : Option String)
    (h : ∀ t ∈ monthlyDebtRangeTokens, r ≠ some t) : getMonthlyDebtAmount r = 0 := by
  cases r with
  | none => rfl
  | some s =>
    simp only [monthlyDebtRangeTokens, List.mem_cons, List.not_mem_nil] at h
    simp only [getMonthlyDebtAmount]
    split <;> simp_all

theorem getCreditScore_default (r : Option String)
    (h : ∀ t ∈ creditRangeTokens, r ≠ some t) : getCreditScore r = none := by
  cases r with
  | none => rfl
  | some s =>
    simp only [creditRangeTokens, List.mem_cons, List.not_mem_nil] at h
    simp only [getCreditScore]
    split <;> simp_all

theorem getIncomeAmount_ge (r : Option String) : 35000 ≤ getIncomeAmount r := by
  cases r with
  | none => norm_num [getIncomeAmount]
  | some s =>
    simp only [getIncomeAmount]
    split <;> norm_num

theorem getPriceAmount_ge (r : Option String) : 350000 ≤ getPriceAmount r := by
  cases r with
  | none => norm_num [getPriceAmount]
  | some s =>
    simp only [getPriceAmount]
    split <;> norm_num

theorem getDownPaymentAmount_ge (r : Option String) : 5000 ≤ getDownPaymentAmount r := by
  cases r with
  | none => norm_num [getDownPaymentAmount]
  | some s =>
    simp only [getDownPaymentAmount]
    split <;> norm_num

theorem getMonthlyDebtAmount_nonneg (r : Option String) : 0 ≤ getMonthlyDebtAmount r := by
  cases r with
  | none => norm_num [getMonthlyDebtAmount]
  | some s =>
    simp only [getMonthlyDebtAmount]
    split <;> norm_num

theorem creditScoreOr650_ge (r : Option String) :
    500 ≤ creditScoreOr650 (getCreditScore r) := by
  cases r with
  | none => norm_num [getCreditScore, creditScoreOr650]
  | some s =>
    simp only [getCreditScore]
    split <;> norm_num [creditScoreOr650]

theorem estimateMonthlyPayment_pos (p : ℚ) (hp : 0 ≤ p) :
    0 < estimateMonthlyPayment p (35/1000) := by
  simp only [estimateMonthlyPayment, CURRENT_RATE]
  have hK : (1 : ℚ) < (1 + 6/100/12) ^ (360 : ℕ) :=
    one_lt_pow (by norm_num) (by norm_num)
  have hL : 0 ≤ p - p * (35/1000) := by nlinarith
  have hmort : 0 ≤ (p - p * (35/1000)) * (6/100/12 * (1 + 6/100/12) ^ (360 : ℕ)) /
      ((1 + 6/100/12) ^ (360 : ℕ) - 1) := by
    apply div_nonneg
    · exact mul_nonneg hL (mul_nonneg (by norm_num) (by linarith))
    · linarith
  have htax : 0 ≤ p * (12/1000) / 12 :=
    div_nonneg (mul_nonneg hp (by norm_num)) (by norm_num)
  have hpmi : 0 ≤ (p - p * (35/1000)) * (8/1000) / 12 := by
    apply div_nonneg
    · apply mul_nonneg hL
      norm_num
    · norm_num
  linarith

/-- C9: calculateScore is total on arbitrary string inputs: unrecognized or
absent tokens resolve to the documented defaults (income $60,000, price
$500,000, down payment $20,000, debts $0, credit null); the resolved monthly
income is always positive, the resolved target price is positive, and every
variable divisor in the computation (monthly income, the target price, the
estimated payment at the target and at any clamped iteration price) is
nonzero, so no division by zero occurs. -/
theorem c9_totality_no_div_zero (i : ScoreInput) :
    ((∀ t ∈ incomeRangeTokens, i.annualIncome ≠ some t) →
      getIncomeAmount i.annualIncome = 60000) ∧
    ((∀ t ∈ priceRangeTokens, i.priceRange ≠ some t) →
      getPriceAmount i.priceRange = 500000) ∧
    ((∀ t ∈ downPaymentRangeTokens, i.downPayment ≠ some t) →
      getDownPaymentAmount i.downPayment = 20000) ∧
    ((∀ t ∈ monthlyDebtRangeTokens, i.monthlyDebts ≠ some t) →
      getMonthlyDebtAmount i.monthlyDebts = 0) ∧
    ((∀ t ∈ creditRangeTokens, i.creditScoreRange ≠ some t) →
      getCreditScore i.creditScoreRange = none) ∧
    0 < (calculateScore i).parsedValues.monthlyIncome ∧
    0 < (calculateScore i).parsedValues.targetPrice ∧
    0 < estimateMonthlyPayment ((calculateScore i).parsedValues.targetPrice) (35/1000) ∧
    (∀ p : ℚ, 0 ≤ p → 0 < estimateMonthlyPayment p (35/1000)) := by
  have hmi : (calculateScore i).parsedValues.monthlyIncome =
      getIncomeAmount i.annualIncome / 12 := rfl
  have hpt : (calculateScore i).parsedValues.targetPrice =
      getPriceAmount i.priceRange := rfl
  refine ⟨getIncomeAmount_default _, getPriceAmount_default _, getDownPaymentAmount_default _,
    getMonthlyDebtAmount_default _, getCreditScore_default _, ?_, ?_, ?_,
    fun p hp => estimateMonthlyPayment_pos p hp⟩
  · rw [hmi]
    have := getIncomeAmount_ge i.annualIncome
    linarith
  · rw [hpt]
    have := getPriceAmount_ge i.priceRange
    linarith
  · rw [hpt]
    have := getPriceAmount_ge i.priceRange
    exact estimateMonthlyPayment_pos _ (by linarith)

def c9Input : ScoreInput :=
  ⟨some "mystery", some "mystery", some "mystery", some "mystery", some "mystery",
   none, some "mystery"⟩

theorem c9_witness :
    getIncomeAmount (some "mystery") = 60000 ∧
    getPriceAmount (some "mystery") = 500000 ∧
    getDownPaymentAmount (some "mystery") = 20000 ∧
    getMonthlyDebtAmount (some "mystery") = 0 ∧
    getCreditScore (some "mystery") = none ∧
    0 < (calculateScore c9Input).parsedValues.monthlyIncome ∧
    0 < (calculateScore c9Input).parsedValues.targetPrice := by
  have h := c9_totality_no_div_zero c9Input
  refine ⟨h.1 ?_, h.2.1 ?_, h.2.2.1 ?_, h.2.2.2.1 ?_, h.2.2.2.2.1 ?_,
    h.2.2.2.2.2.1, h.2.2.2.2.2.2.1⟩
  · intro t ht
    simp only [incomeRangeTokens, List.mem_cons, List.not_mem_nil, or_false] at ht
    rcases ht with h' | h' | h' | h' | h' | h' | h' | h' <;> subst h' <;> simp [c9Input]
  · intro t ht
    simp only [priceRangeTokens, List.mem_cons, List.not_mem_nil, or_false] at ht
    rcases ht with h' | h' | h' | h' | h' | h' | h' | h' <;> subst h' <;> simp [c9Input]
  · intro t ht
    simp only [downPaymentRangeTokens, List.mem_cons, List.not_mem_nil, or_false] at ht
    rcases ht with h' | h' | h' | h' | h' | h' | h' | h' | h' | h' <;> subst h' <;>
      simp [c9Input]
  · intro t ht
    simp only [monthlyDebtRangeTokens, List.mem_cons, List.not_mem_nil, or_false] at ht
    rcases ht with h' | h' | h' | h' | h' | h' | h' | h' <;> subst h' <;> simp [c9Input]
  · intro t ht
    simp only [creditRangeTokens, List.mem_cons, List.not_mem_nil, or_false] at ht
    rcases ht with h' | h' | h' | h' | h' | h' <;> subst h' <;> simp [c9Input]

/-
C1: the worked example input.
-/

def c1Input : ScoreInput :=
  ⟨none, some "100k-150k", some "50k-75k", some "500k-600k", some "500-1000", some false, none⟩

theorem c1_dti_eval : (calculateScore c1Input).breakdown.dti = 10 := by
  have h : (calculateScore c1Input).breakdown.dti =
      calculateDtiPoints ((125000 : ℚ)/12) 550000 750 := rfl
  rw [h]
  norm_num [calculateDtiPoints, estimateMonthlyPayment, CURRENT_RATE]

theorem c1_total_eval : (calculateScore c1Input).total = 61 := by
  have h : (calculateScore c1Input).total =
      max 0 (min 100 ((calculateCreditPoints none + calculateDtiPoints ((125000 : ℚ)/12) 550000 750 +
        calculateDownPaymentPoints 62500 550000 none + calculateEmploymentPoints +
        calculateReservesPoints 62500 550000) + calculateBonusPoints (some false) none - 0)) := rfl
  rw [h]
  have h1 : calculateCreditPoints none = 15 := rfl
  have h2 : calculateDtiPoints ((125000 : ℚ)/12) 550000 750 = 10 := by
    norm_num [calculateDtiPoints, estimateMonthlyPayment, CURRENT_RATE]
  have h3 : calculateDownPaymentPoints 62500 550000 none = 14 := by
    norm_num [calculateDownPaymentPoints, isVeteranEligible]
  have h4 : calculateReservesPoints 62500 550000 = 10 := by
    norm_num [calculateReservesPoints, estimateMonthlyPayment, CURRENT_RATE]
  have h5 : calculateBonusPoints (some false) none = 0 := by
    norm_num [calculateBonusPoints, isVeteranEligible]
  rw [h1, h2, h3, h4, h5]
  norm_num [calculateEmploymentPoints]

/-- C1 counterexample: on the spec example input (income "100k-150k", price
"500k-600k", down payment "50k-75k", debts "500-1000", not first-time, no
veteran status, credit unknown) the code does not produce dti = 14 and
total = 65: the PITI at $550,000 is ≈ $4,186 (the spec omitted the PMI term),
so the DTI is ≈ 47.4% and dtiPoints = 10. -/
theorem c1_counterexample :
    ¬((calculateScore c1Input).breakdown.dti = 14 ∧ (calculateScore c1Input).total = 65) := by
  intro h
  have h14 := h.1
  rw [c1_dti_eval] at h14
  norm_num at h14

/-- C1: on the spec example input the breakdown is credit = 15, dti = 10,
downPayment = 14, employment = 12, reserves = 10, bonus = 0, the total is 61,
the status is GETTING_CLOSE and the timeline is "3-6 months" (the claimed
dti = 14 and total = 65 came from a payment estimate that omitted PMI). -/
theorem c1_example_amended :
    (calculateScore c1Input).breakdown =
      { credit := 15, dti := 10, downPayment := 14, employment := 12, reserves := 10,
        bonus := 0, penalty := 0 } ∧
    (calculateScore c1Input).total = 61 ∧
    (calculateScore c1Input).status = ScoreStatus.GETTING_CLOSE ∧
    (calculateScore c1Input).timeline = "3-6 months" := by
  have hb : (calculateScore c1Input).breakdown =
      { credit := calculateCreditPoints none,
        dti := calculateDtiPoints ((125000 : ℚ)/12) 550000 750,
        downPayment := calculateDownPaymentPoints 62500 550000 none,
        employment := calculateEmploymentPoints,
        reserves := calculateReservesPoints 62500 550000,
        bonus := calculateBonusPoints (some false) none, penalty := 0 } := rfl
  have h1 : calculateCreditPoints none = 15 := rfl
  have h2 : calculateDtiPoints ((125000 : ℚ)/12) 550000 750 = 10 := by
    norm_num [calculateDtiPoints, estimateMonthlyPayment, CURRENT_RATE]
  have h3 : calculateDownPaymentPoints 62500 550000 none = 14 := by
    norm_num [calculateDownPaymentPoints, isVeteranEligible]
  have h4 : calculateReservesPoints 62500 550000 = 10 := by
    norm_num [calculateReservesPoints, estimateMonthlyPayment, CURRENT_RATE]
  have h5 : calculateBonusPoints (some false) none = 0 := by
    norm_num [calculateBonusPoints, isVeteranEligible]
  have hs : (calculateScore c1Input).status = getStatus ((calculateScore c1Input).total) := rfl
  have htl : (calculateScore c1Input).timeline = getTimeline ((calculateScore c1Input).total) := rfl
  refine ⟨?_, c1_total_eval, ?_, ?_⟩
  · rw [hb, h1, h2, h3, h4, h5]
    rfl
  · rw [hs, c1_total_eval]
    norm_num [getStatus]
  · rw [htl, c1_total_eval]
    norm_num [getTimeline]

/-
C7: pathToGoal null conditions.
-/

theorem calculatePathToGoal_none (mi md sv t : ℚ) (ss : SweetSpot) (score : ℤ)
    (h : |t - ss.recommendedPrice| < 10000 ∨ t < ss.recommendedPrice ∨
      computeRequiredChanges mi md sv t = []) :
    calculatePathToGoal mi md sv t ss score = none := by
  simp only [calculatePathToGoal]
  split_ifs with h1 h2 h3
  · rfl
  · rfl
  · rfl
  · rcases h with ha | hb | hc
    · exact absurd ha h1
    · exact absurd hb h2
    · exact absurd hc h3

/-- C7: the pathToGoal is null whenever the resolved target price is within
$10,000 of the recommended sweet-spot price, whenever it is below the
recommended price, and whenever the required-changes computation at the
target price produces no changes. -/
theorem c7_pathToGoal_null (input : ScoreInput)
    (h : |(calculateScore input).parsedValues.targetPrice -
        (calculateScore input).sweetSpot.recommendedPrice| < 10000 ∨
      (calculateScore input).parsedValues.targetPrice <
        (calculateScore input).sweetSpot.recommendedPrice ∨
      computeRequiredChanges ((calculateScore input).parsedValues.monthlyIncome)
        ((calculateScore input).parsedValues.monthlyDebts)
        ((calculateScore input).parsedValues.savedAmount)
        ((calculateScore input).parsedValues.targetPrice) = []) :
    (calculateScore input).pathToGoal = none := by
  exact calculatePathToGoal_none _ _ _ _ _ _ h

def c7Input : ScoreInput :=
  ⟨none, some "220k-plus", some "25k-50k", some "under-400k", some "none", none, none⟩

theorem c7_witness :
    computeRequiredChanges ((calculateScore c7Input).parsedValues.monthlyIncome)
      ((calculateScore c7Input).parsedValues.monthlyDebts)
      ((calculateScore c7Input).parsedValues.savedAmount)
      ((calculateScore c7Input).parsedValues.targetPrice) = [] ∧
    (calculateScore c7Input).pathToGoal = none := by
  have h : computeRequiredChanges ((calculateScore c7Input).parsedValues.monthlyIncome)
      ((calculateScore c7Input).parsedValues.monthlyDebts)
      ((calculateScore c7Input).parsedValues.savedAmount)
      ((calculateScore c7Input).parsedValues.targetPrice) = [] := by
    have e : computeRequiredChanges ((calculateScore c7Input).parsedValues.monthlyIncome)
        ((calculateScore c7Input).parsedValues.monthlyDebts)
        ((calculateScore c7Input).parsedValues.savedAmount)
        ((calculateScore c7Input).parsedValues.targetPrice) =
        computeRequiredChanges ((250000 : ℚ)/12) 0 37500 350000 := rfl
    rw [e]
    norm_num [computeRequiredChanges, calculateCurrentDti, jsRound, estimateMonthlyPayment,
      CURRENT_RATE]
  exact ⟨h, c7_pathToGoal_null c7Input (Or.inr (Or.inr h))⟩

/-
C5: Utah program eligibility boundaries in matchPrograms.
-/

theorem matchPrograms_mem_firstHome (cs : Option ℚ) (ftb : Option Bool) (vs : Option String)
    (inc : ℚ) :
    ("Utah FirstHome" ∈ ((matchPrograms cs ftb vs inc).map fun pd => pd.name)) ↔
      (ftb = some true ∧ creditScoreOr650 cs ≥ 660 ∧ inc < 141400) := by
  simp only [matchPrograms, List.map_append, List.mem_append]
  split_ifs <;> simp_all

theorem matchPrograms_mem_homeAgain (cs : Option ℚ) (ftb : Option Bool) (vs : Option String)
    (inc : ℚ) :
    ("Utah HomeAgain" ∈ ((matchPrograms cs ftb vs inc).map fun pd => pd.name)) ↔
      (creditScoreOr650 cs ≥ 660 ∧ inc < 141400) := by
  simp only [matchPrograms, List.map_append, List.mem_append]
  split_ifs <;> simp_all

/-- C5 counterexample: an applicant with resolved credit 680 (at least 660),
first-time buyer, and annual income exactly $141,400 (which satisfies the
claimed income ≤ $141,400 test) is matched to neither Utah FirstHome nor
Utah HomeAgain, because matchPrograms requires income strictly below
$141,400. -/
theorem c5_counterexample :
    (660 ≤ creditScoreOr650 (some 680)) ∧ ((141400 : ℚ) ≤ 141400) ∧
    ("Utah FirstHome" ∉
      ((matchPrograms (some 680) (some true) none 141400).map fun pd => pd.name)) ∧
    ("Utah HomeAgain" ∉
      ((matchPrograms (some 680) (some true) none 141400).map fun pd => pd.name)) := by
  refine ⟨by norm_num [creditScoreOr650], le_refl _, ?_, ?_⟩
  · rw [matchPrograms_mem_firstHome]
    norm_num
  · rw [matchPrograms_mem_homeAgain]
    norm_num

/-- C5: for resolved credit at least 660, Utah FirstHome is matched iff the
first-time-buyer flag is true and annual income is strictly below $141,400,
and Utah HomeAgain iff annual income is strictly below $141,400 (an income of
exactly $141,400 is not eligible in matchPrograms); with unknown credit the
default 650 fails the 660 test and neither program is matched. -/
theorem c5_utah_income_strict (cs : Option ℚ) (ftb : Option Bool) (vs : Option String)
    (inc : ℚ) :
    ((660 ≤ creditScoreOr650 cs) →
      ((("Utah FirstHome" ∈ ((matchPrograms cs ftb vs inc).map fun pd => pd.name)) ↔
          (ftb = some true ∧ inc < 141400)) ∧
        (("Utah HomeAgain" ∈ ((matchPrograms cs ftb vs inc).map fun pd => pd.name)) ↔
          inc < 141400))) ∧
    (creditScoreOr650 cs < 660 →
      (("Utah FirstHome" ∉ ((matchPrograms cs ftb vs inc).map fun pd => pd.name)) ∧
        ("Utah HomeAgain" ∉ ((matchPrograms cs ftb vs inc).map fun pd => pd.name)))) := by
  constructor
  · intro h660
    constructor
    · rw [matchPrograms_mem_firstHome]
      constructor
      · rintro ⟨hf, _, hi⟩
        exact ⟨hf, hi⟩
      · rintro ⟨hf, hi⟩
        exact ⟨hf, h660, hi⟩
    · rw [matchPrograms_mem_homeAgain]
      constructor
      · rintro ⟨_, hi⟩
        exact hi
      · intro hi
        exact ⟨h660, hi⟩
  · intro hlt
    constructor
    · rw [matchPrograms_mem_firstHome]
      rintro ⟨_, h660, _⟩
      linarith
    · rw [matchPrograms_mem_homeAgain]
      rintro ⟨h660, _⟩
      linarith

theorem c5_witness :
    (660 ≤ creditScoreOr650 (some 680)) ∧
    ("Utah FirstHome" ∈
      ((matchPrograms (some 680) (some true) none 125000).map fun pd => pd.name)) := by
  have h : (660 : ℚ) ≤ creditScoreOr650 (some 680) := by norm_num [creditScoreOr650]
  exact ⟨h,
    ((c5_utah_income_strict (some 680) (some true) none 125000).1 h).1.mpr
      ⟨rfl, by norm_num⟩⟩

/-
C6: solution-count bounds for each blocker branch.
-/

theorem checkDPAEligibility_fha (cs : Option ℚ) (inc : ℚ) (ftb : Option Bool)
    (vs : Option String) (h : 500 ≤ creditScoreOr650 cs) :
    (checkDPAEligibility cs inc ftb vs).fhaEligible = true := by
  simp only [checkDPAEligibility, PROGRAM_LIMITS_fha_minCreditScore10Down]
  exact decide_eq_true h

theorem dtiSevereBlocker_len (mi md t : ℚ) (hm : 3 ≤ mi)
    (hdti : calculateCurrentDti mi md (estimateMonthlyPayment t (35/1000)) > 50) :
    1 ≤ (dtiSevereBlocker mi md t).solutions.length ∧
      (dtiSevereBlocker mi md t).solutions.length ≤ 4 := by
  have hmi0 : (0 : ℚ) < mi := by linarith
  have hX : (101 : ℚ)/2 ≤
      (estimateMonthlyPayment t (35/1000) + md) / mi * 100 := by
    unfold calculateCurrentDti jsRound at hdti
    have h51 : (51 : ℤ) ≤ ⌊(estimateMonthlyPayment t (35/1000) + md) / mi * 100 + 1/2⌋ := by
      by_contra hc
      push_neg at hc
      have hle : (⌊(estimateMonthlyPayment t (35/1000) + md) / mi * 100 + 1/2⌋ : ℚ) ≤ 50 := by
        exact_mod_cast Int.lt_add_one_iff.mp hc
      linarith
    have hfl := Int.le_floor.mp h51
    push_cast at hfl
    linarith
  have hsum : (101 : ℚ)/200 * mi ≤ estimateMonthlyPayment t (35/1000) + md := by
    have hrw : (estimateMonthlyPayment t (35/1000) + md) / mi * 100 * mi =
        (estimateMonthlyPayment t (35/1000) + md) * 100 := by
      field_simp
    nlinarith [hX, hmi0]
  have hinc : 0 < calculateIncomeForDti mi md (estimateMonthlyPayment t (35/1000)) 43 := by
    simp only [calculateIncomeForDti, jsRound]
    have hY : (1 : ℚ)/2 ≤
        (estimateMonthlyPayment t (35/1000) + md) / ((43 : ℚ)/100) - mi := by
      have h43 : (estimateMonthlyPayment t (35/1000) + md) / ((43 : ℚ)/100) =
          (estimateMonthlyPayment t (35/1000) + md) * (100/43) := by
        ring
      rw [h43]
      nlinarith [hsum, hm]
    have h1 : (1 : ℤ) ≤
        ⌊(estimateMonthlyPayment t (35/1000) + md) / ((43 : ℚ)/100) - mi + 1/2⌋ := by
      rw [Int.le_floor]
      push_cast
      linarith
    have h1q : (1 : ℚ) ≤
        (⌊(estimateMonthlyPayment t (35/1000) + md) / ((43 : ℚ)/100) - mi + 1/2⌋ : ℚ) := by
      exact_mod_cast h1
    have := le_max_right (0 : ℚ)
      ((⌊(estimateMonthlyPayment t (35/1000) + md) / ((43 : ℚ)/100) - mi + 1/2⌋ : ℤ) : ℚ)
    linarith
  simp only [dtiSevereBlocker]
  rw [if_pos hinc]
  split_ifs <;> simp

theorem dtiModerateBlocker_len (dpa : DPAEligibility) (mi md t : ℚ)
    (hfha : dpa.fhaEligible = true) :
    1 ≤ (dtiModerateBlocker dpa mi md t).solutions.length ∧
      (dtiModerateBlocker dpa mi md t).solutions.length ≤ 4 := by
  simp only [dtiModerateBlocker, hfha]
  split_ifs <;> simp

theorem downPaymentShortfallBlocker_len (dpa : DPAEligibility) (t sv mdp : ℚ) :
    1 ≤ (downPaymentShortfallBlocker dpa t sv mdp).solutions.length ∧
      (downPaymentShortfallBlocker dpa t sv mdp).solutions.length ≤ 4 := by
  simp only [downPaymentShortfallBlocker]
  split_ifs <;> simp

theorem thinDownPaymentBlocker_len (dpa : DPAEligibility) (cs : Option ℚ)
    (dpPoints : ℤ) (inc t sv : ℚ) (hsv : sv < t * (5/100)) :
    1 ≤ (thinDownPaymentBlocker dpa cs dpPoints inc t sv).solutions.length ∧
      (thinDownPaymentBlocker dpa cs dpPoints inc t sv).solutions.length ≤ 4 := by
  have hadd : t * (5/100) - sv > 0 := by linarith
  simp only [thinDownPaymentBlocker]
  rw [if_pos hadd]
  split_ifs <;> simp

theorem poorCreditBlocker_len (dpa : DPAEligibility) (c : ℚ) :
    1 ≤ (poorCreditBlocker dpa c).solutions.length ∧
      (poorCreditBlocker dpa c).solutions.length ≤ 4 := by
  simp only [poorCreditBlocker]
  split_ifs <;> simp

theorem fairCreditBlocker_len (inc : ℚ) :
    1 ≤ (fairCreditBlocker inc).solutions.length ∧
      (fairCreditBlocker inc).solutions.length ≤ 4 := by
  simp only [fairCreditBlocker]
  split_ifs <;> simp

theorem downPaymentPoints_le7_percent (sv t : ℚ) (vs : Option String)
    (hvet : isVeteranEligible vs = false)
    (hle : calculateDownPaymentPoints sv t vs ≤ 7) (ht : 0 < t) :
    sv < t * (5/100) := by
  simp only [calculateDownPaymentPoints, hvet] at hle
  norm_num at hle
  split_ifs at hle with p1 p2 p3 p4 p5 p6 p7
  · norm_num at hle
  · norm_num at hle
  · norm_num at hle
  · norm_num at hle
  all_goals
    have h' := not_le.mp p4
    rw [div_mul_eq_mul_div, div_lt_iff ht] at h'
    linarith


theorem detectPrimaryBlocker_len (cs : Option ℚ) (cp dtp : ℤ) (mi md t sv : ℚ)
    (vs : Option String) (inc : ℚ) (ftb : Option Bool) (b : PrimaryBlocker)
    (hm : 3 ≤ mi) (ht : 0 < t) (hcs : 500 ≤ creditScoreOr650 cs)
    (h : detectPrimaryBlocker cs cp dtp (calculateDownPaymentPoints sv t vs)
      mi md t sv vs inc ftb = some b) :
    1 ≤ b.solutions.length ∧ b.solutions.length ≤ 4 := by
  simp only [detectPrimaryBlocker] at h
  split_ifs at h with hA hB hC hD hE hF hG
  · injection h with hb
    subst hb
    exact dtiSevereBlocker_len mi md t hm hA
  · injection h with hb
    subst hb
    exact dtiModerateBlocker_len _ mi md t (checkDPAEligibility_fha cs inc ftb vs hcs)
  · injection h with hb
    subst hb
    exact downPaymentShortfallBlocker_len _ t sv 0
  · injection h with hb
    subst hb
    exact thinDownPaymentBlocker_len _ cs _ inc t sv
      (downPaymentPoints_le7_percent sv t vs hE.2 hE.1 ht)
  · cases cs with
    | none => exact absurd h (by simp)
    | some c =>
      dsimp only at h
      split_ifs at h with h5 h6
      · injection h with hb
        subst hb
        exact poorCreditBlocker_len _ c
      · injection h with hb
        subst hb
        exact fairCreditBlocker_len inc
  · injection h with hb
    subst hb
    exact downPaymentShortfallBlocker_len _ t sv (t * (35/1000))
  · injection h with hb
    subst hb
    exact thinDownPaymentBlocker_len _ cs _ inc t sv
      (downPaymentPoints_le7_percent sv t vs hG.2 hG.1 ht)
  · cases cs with
    | none => exact absurd h (by simp)
    | some c =>
      dsimp only at h
      split_ifs at h with h5 h6
      · injection h with hb
        subst hb
        exact poorCreditBlocker_len _ c
      · injection h with hb
        subst hb
        exact fairCreditBlocker_len inc

/-- C6: whenever calculateScore reports a non-null primary blocker, its
solutions list contains at least 1 and at most 4 solutions. -/
theorem c6_blocker_solution_count (input : ScoreInput) (b : PrimaryBlocker)
    (h : (calculateScore input).primaryBlocker = some b) :
    1 ≤ b.solutions.length ∧ b.solutions.length ≤ 4 := by
  have hpb : (calculateScore input).primaryBlocker =
      detectPrimaryBlocker (getCreditScore input.creditScoreRange)
        (calculateCreditPoints (getCreditScore input.creditScoreRange))
        (calculateDtiPoints (getIncomeAmount input.annualIncome / 12)
          (getPriceAmount input.priceRange) (getMonthlyDebtAmount input.monthlyDebts))
        (calculateDownPaymentPoints (getDownPaymentAmount input.downPayment)
          (getPriceAmount input.priceRange) input.veteranStatus)
        (getIncomeAmount input.annualIncome / 12) (getMonthlyDebtAmount input.monthlyDebts)
        (getPriceAmount input.priceRange) (getDownPaymentAmount input.downPayment)
        input.veteranStatus (getIncomeAmount input.annualIncome) input.firstTimeBuyer := rfl
  rw [hpb] at h
  refine detectPrimaryBlocker_len _ _ _ _ _ _ _ _ _ _ b ?_ ?_ ?_ h
  · have := getIncomeAmount_ge input.annualIncome
    linarith
  · have := getPriceAmount_ge input.priceRange
    linarith
  · exact creditScoreOr650_ge input.creditScoreRange

def c6Input : ScoreInput :=
  ⟨none, some "under-40k", none, some "1m-plus", some "3000-plus", none, none⟩

theorem c6_witness :
    ∃ b, (calculateScore c6Input).primaryBlocker = some b ∧
      1 ≤ b.solutions.length ∧ b.solutions.length ≤ 4 := by
  have hcond : calculateCurrentDti ((35000 : ℚ)/12) 3500
      (estimateMonthlyPayment 1200000 (35/1000)) > 50 := by
    norm_num [calculateCurrentDti, jsRound, estimateMonthlyPayment, CURRENT_RATE]
  have hb : (calculateScore c6Input).primaryBlocker =
      some (dtiSevereBlocker ((35000 : ℚ)/12) 3500 1200000) := by
    show detectPrimaryBlocker none 15
        (calculateDtiPoints ((35000 : ℚ)/12) 1200000 3500)
        (calculateDownPaymentPoints 20000 1200000 none)
        ((35000 : ℚ)/12) 3500 1200000 20000 none 35000 none =
      some (dtiSevereBlocker ((35000 : ℚ)/12) 3500 1200000)
    simp only [detectPrimaryBlocker]
    rw [if_pos hcond]
  exact ⟨dtiSevereBlocker ((35000 : ℚ)/12) 3500 1200000, hb,
    c6_blocker_solution_count c6Input _ hb⟩
